import Mathlib

/-!
Verification of the Prowler LittleHorse orchestration layer.

Shallow embedding of:
- `src/api/src/backend/tasks/littlehorse_workers.py` (task handlers, worker startup)
- `src/api/src/backend/config/workflows.py` (workflow definitions, registrar)
- `src/api/src/backend/config/littlehorse.py` (engine client configuration)

External collaborators (the LittleHorse engine runtime, the Django ORM's
on-disk store, the domain job functions) are modelled explicitly; each such
model carries a doc comment naming its origin.
-/

namespace Prowler

/-! ## Data model for the scheduled-scan deduplicator

Embeds the parts of `api.models` used by `setup_scheduled_scan_task`:
`Scan` rows with trigger/state/scheduler_task_id/scheduled_at fields, and
`django_celery_beat.models.PeriodicTask` rows with id and name. -/

/-- Scan lifecycle states, from `api.models.StateChoices`. -/
inductive StateChoices where
  | AVAILABLE
  | SCHEDULED
  | EXECUTING
  | COMPLETED
  | FAILED
  | CANCELLED
deriving DecidableEq, Repr

/-- Scan trigger kinds, from `api.models.Scan.TriggerChoices`. -/
inductive TriggerChoices where
  | SCHEDULED
  | MANUAL
deriving DecidableEq, Repr

/-- A timestamp at day granularity plus a sub-day offset in minutes.
`day` is a calendar-day ordinal; `datetime.date()` projects out `day`,
and `timedelta(days = 1)` subtraction decrements `day` by one. -/
structure DateTime where
  day : Int
  minute : Nat
deriving DecidableEq, Repr

/-- Subtraction of `timedelta(days = n)` from a datetime. -/
def DateTime.subDays (t : DateTime) (n : Int) : DateTime :=
  { t with day := t.day - n }

/-- A row of the `Scan` table, restricted to the columns the scheduled-scan
handler reads or writes (`api.models.Scan`). -/
structure Scan where
  id : Nat
  tenant_id : String
  provider_id : String
  trigger : TriggerChoices
  state : StateChoices
  scheduler_task_id : Nat
  scheduled_at : DateTime
  name : String
deriving DecidableEq, Repr

/-- A row of `django_celery_beat.models.PeriodicTask` (id and unique name). -/
structure PeriodicTask where
  id : Nat
  name : String
deriving DecidableEq, Repr

/-- The transactional store visible to the handler: the periodic-task table,
the scan table, and the id the store would assign to the next created row. -/
structure Db where
  periodic_tasks : List PeriodicTask
  scans : List Scan
  next_scan_id : Nat
deriving DecidableEq, Repr

/-- Result payload of `setup_scheduled_scan_task`: the returned dict
`{"scan_id": ..., "duplicate": ..., "result": ...}` where the `result`
key (the serializer snapshot) is present only in the duplicate branch. -/
structure SetupResult where
  scan_id : Nat
  duplicate : Bool
  result : Option Scan
deriving DecidableEq, Repr

/-- Modelled from the spec: `ScanTaskSerializer(instance = s).data` is "a
serialized snapshot of the existing record" (the serializer itself lives
outside this repository slice); the snapshot is the record's field values. -/
def ScanTaskSerializer (s : Scan) : Scan := s

/-- The filter predicate of the duplicate check at
`littlehorse_workers.py:115-122`: tenant, provider, trigger=SCHEDULED,
state=EXECUTING, the scheduling task's id, and scheduled date = today. -/
def executingTodayMatch (tenant_id provider_id : String) (ptId : Nat)
    (today : Int) (s : Scan) : Bool :=
  s.tenant_id = tenant_id && s.provider_id = provider_id &&
  s.trigger = TriggerChoices.SCHEDULED && s.state = StateChoices.EXECUTING &&
  s.scheduler_task_id = ptId && s.scheduled_at.day = today

/-- The lookup predicate of the `get_or_create` at
`littlehorse_workers.py:131-136`: tenant, provider, trigger=SCHEDULED,
`state__in = (SCHEDULED, AVAILABLE)`, the scheduling task's id — and no
date condition. -/
def getOrCreateMatch (tenant_id provider_id : String) (ptId : Nat)
    (s : Scan) : Bool :=
  s.tenant_id = tenant_id && s.provider_id = provider_id &&
  s.trigger = TriggerChoices.SCHEDULED &&
  (s.state = StateChoices.SCHEDULED || s.state = StateChoices.AVAILABLE) &&
  s.scheduler_task_id = ptId

/-- Embedding of `setup_scheduled_scan_task` (`littlehorse_workers.py:103-147`).

Inside a tenant-scoped transaction it:
1. looks up `PeriodicTask` named `scan-perform-scheduled-{provider_id}`
   (`objects.get` raises `DoesNotExist` when no row matches and
   `MultipleObjectsReturned` when several do; the handler re-raises after
   logging — the `.error` branches);
2. queries for an EXECUTING scheduled scan of today (`.filter(...).first()`);
   if found, returns its id, `duplicate = True` and the serializer snapshot,
   leaving the store unchanged;
3. otherwise `get_or_create`s a scan matching `getOrCreateMatch`
   (internally `.get(**kwargs)`: one match is returned, several raise
   `MultipleObjectsReturned`, none triggers creation); on create the
   defaults are state=SCHEDULED, name="Daily scheduled scan",
   scheduled_at = `get_next_execution_datetime("scheduled", provider_id)`
   minus one day (the `__in` lookup is dropped from the creation kwargs, as
   Django does). Returns the row's id and `duplicate = False`.

`nextExec` stands for the external domain operation
`tasks.utils.get_next_execution_datetime`; `today` is
`datetime.now(timezone.utc).date()`. The handler returns the result together
with the store as left by the transaction; a raised exception rolls the
transaction back, so the `.error` branch carries no store. -/
def setup_scheduled_scan_task (nextExec : String → String → DateTime)
    (today : Int) (db : Db) (tenant_id provider_id : String) :
    Except String (SetupResult × Db) :=
  match db.periodic_tasks.filter
      (fun p => p.name = "scan-perform-scheduled-" ++ provider_id) with
  | [] => .error "PeriodicTask matching query does not exist."
  | _ :: _ :: _ => .error "get() returned more than one PeriodicTask"
  | [periodic_task_instance] =>
    match db.scans.find?
        (executingTodayMatch tenant_id provider_id periodic_task_instance.id
          today) with
    | some existing_scan =>
      .ok ({ scan_id := existing_scan.id, duplicate := true,
             result := some (ScanTaskSerializer existing_scan) }, db)
    | none =>
      let next_scan_datetime := nextExec "scheduled" provider_id
      match db.scans.filter
          (getOrCreateMatch tenant_id provider_id
            periodic_task_instance.id) with
      | [scan_instance] =>
        .ok ({ scan_id := scan_instance.id, duplicate := false,
               result := none }, db)
      | _ :: _ :: _ => .error "get() returned more than one Scan"
      | [] =>
        let created : Scan :=
          { id := db.next_scan_id, tenant_id := tenant_id,
            provider_id := provider_id, trigger := TriggerChoices.SCHEDULED,
            state := StateChoices.SCHEDULED,
            scheduler_task_id := periodic_task_instance.id,
            scheduled_at := next_scan_datetime.subDays 1,
            name := "Daily scheduled scan" }
        .ok ({ scan_id := created.id, duplicate := false, result := none },
             { db with scans := db.scans ++ [created],
                       next_scan_id := db.next_scan_id + 1 })

/-- The store as observed after the handler ran: a raised exception aborts
the tenant-scoped transaction, so the store is unchanged on error. -/
def setupResultingDb (nextExec : String → String → DateTime) (today : Int)
    (db : Db) (tenant_id provider_id : String) : Db :=
  match setup_scheduled_scan_task nextExec today db tenant_id provider_id with
  | .ok (_, db2) => db2
  | .error _ => db

/-! ## Workflow definitions (`config/workflows.py`)

A `WfSpec` records the sequence of builder calls a workflow function makes
on the engine's workflow-spec object: `add_variable` declarations and, in
order, `execute_task`, `wait_for_tasks` and `spawn_thread` nodes. Task
inputs and spawned-thread variables bind either a jsonpath over a declared
workflow variable, a jsonpath over an earlier node's output, or the literal
empty list. -/

/-- Variable types used by the workflow definitions
(`littlehorse.VariableType.STR` / `JSON_OBJ`). -/
inductive VariableType where
  | STR
  | JSON_OBJ
deriving DecidableEq, Repr

/-- A declared workflow input variable: `wf.add_variable(name, type)`,
optionally `.with_default_value([])` (`defaultEmptyList`). -/
structure WfVar where
  name : String
  vtype : VariableType
  defaultEmptyList : Bool
deriving DecidableEq, Repr

/-- A value bound to a task input or a spawned thread's variable. -/
inductive VarExpr where
  /-- Binding `v.jsonpath(path)` over declared workflow variable `v`. -/
  | varPath (varName : String) (path : String)
  /-- Binding `nodeOutput.jsonpath(path)` over the output of the node at
  the given index in the node list. -/
  | nodeOutputPath (node : Nat) (path : String)
  /-- Binding of the literal `[]`. -/
  | emptyList
deriving DecidableEq, Repr

/-- One builder call adding a node to the workflow's step graph. -/
inductive WfNode where
  /-- Call `wf.execute_task(taskName, **inputs)`. -/
  | task (taskName : String) (inputs : List (String × VarExpr))
  /-- Call `wf.wait_for_tasks(...)` over the task nodes at the given
  indices. -/
  | waitForTasks (refs : List Nat)
  /-- Call `wf.spawn_thread(threadName, wfName, vars)`. -/
  | spawnThread (threadName : String) (wfName : String)
      (vars : List (String × VarExpr))
deriving DecidableEq, Repr

/-- A workflow definition: declared variables and the node list in builder
order. -/
structure WfSpec where
  vars : List WfVar
  nodes : List WfNode
deriving DecidableEq, Repr

/-- Embedding of `LittleHorseWorkflows.scan_workflow`
(`workflows.py:34-75`): perform-prowler-scan (node 0), then
create-compliance-requirements (node 1) and perform-scan-summary (node 2),
a `wait_for_tasks` over both (node 3), then generate-outputs (node 4). -/
def scan_workflow : WfSpec :=
  { vars :=
      [ { name := "tenant_id", vtype := .STR, defaultEmptyList := false },
        { name := "scan_id", vtype := .STR, defaultEmptyList := false },
        { name := "provider_id", vtype := .STR, defaultEmptyList := false },
        { name := "checks_to_execute", vtype := .JSON_OBJ,
          defaultEmptyList := true } ],
    nodes :=
      [ .task "perform-prowler-scan"
          [ ("tenant_id", .varPath "tenant_id" "$"),
            ("scan_id", .varPath "scan_id" "$"),
            ("provider_id", .varPath "provider_id" "$"),
            ("checks_to_execute", .varPath "checks_to_execute" "$") ],
        .task "create-compliance-requirements"
          [ ("tenant_id", .varPath "tenant_id" "$"),
            ("scan_id", .varPath "scan_id" "$") ],
        .task "perform-scan-summary"
          [ ("tenant_id", .varPath "tenant_id" "$"),
            ("scan_id", .varPath "scan_id" "$") ],
        .waitForTasks [1, 2],
        .task "generate-outputs"
          [ ("tenant_id", .varPath "tenant_id" "$"),
            ("scan_id", .varPath "scan_id" "$"),
            ("provider_id", .varPath "provider_id" "$") ] ] }

/-- Embedding of `LittleHorseWorkflows.scheduled_scan_workflow`
(`workflows.py:84-105`): setup-scheduled-scan (node 0), then a
`spawn_thread("main_scan_thread", "scan", ...)` whose variables pass the
tenant and provider through, project `$.scan_id` from node 0's output, and
bind the literal empty checks list. -/
def scheduled_scan_workflow : WfSpec :=
  { vars :=
      [ { name := "tenant_id", vtype := .STR, defaultEmptyList := false },
        { name := "provider_id", vtype := .STR, defaultEmptyList := false } ],
    nodes :=
      [ .task "setup-scheduled-scan"
          [ ("tenant_id", .varPath "tenant_id" "$"),
            ("provider_id", .varPath "provider_id" "$") ],
        .spawnThread "main_scan_thread" "scan"
          [ ("tenant_id", .varPath "tenant_id" "$"),
            ("scan_id", .nodeOutputPath 0 "$.scan_id"),
            ("provider_id", .varPath "provider_id" "$"),
            ("checks_to_execute", .emptyList) ] ] }

/-- Embedding of `LittleHorseWorkflows.provider_deletion_workflow`
(`workflows.py:110-120`). -/
def provider_deletion_workflow : WfSpec :=
  { vars :=
      [ { name := "tenant_id", vtype := .STR, defaultEmptyList := false },
        { name := "provider_id", vtype := .STR, defaultEmptyList := false } ],
    nodes :=
      [ .task "delete-provider"
          [ ("tenant_id", .varPath "tenant_id" "$"),
            ("provider_id", .varPath "provider_id" "$") ] ] }

/-- Embedding of `LittleHorseWorkflows.tenant_deletion_workflow`
(`workflows.py:125-133`). -/
def tenant_deletion_workflow : WfSpec :=
  { vars :=
      [ { name := "tenant_id", vtype := .STR, defaultEmptyList := false } ],
    nodes :=
      [ .task "delete-tenant"
          [ ("tenant_id", .varPath "tenant_id" "$") ] ] }

/-! ## Engine scheduling semantics

The engine that executes a published step graph is an external collaborator
(spec section 1: a black-box durable-execution service), so its scheduling
of the declared nodes is modelled from the spec (sections 4.4 and 5): nodes
run in declared order, except that task nodes joined by a common
`wait_for_tasks` barrier form a parallel group with no mutual ordering; the
barrier completes only when every task it names has completed, and nodes
after the barrier start only after it. -/

/-- True when some `wait_for_tasks` node of the workflow names both node
`i` and node `j`, making them members of one parallel group. -/
def jointlyWaited (spec : WfSpec) (i j : Nat) : Bool :=
  spec.nodes.any (fun n =>
    match n with
    | .waitForTasks refs => refs.contains i && refs.contains j
    | _ => false)

/-- Modelled from the spec: the precedence relation the engine enforces on
the nodes of a published step graph (the engine runtime is not part of this
repository slice). Node `i` must complete before node `j` starts exactly
when `i` comes earlier in declared order and the two are not joined by a
common parallel-completion barrier. -/
def dependsOn (spec : WfSpec) (i j : Nat) : Bool :=
  decide (i < j) && decide (j < spec.nodes.length) &&
  !(jointlyWaited spec i j)

/-- An observable scheduling event of one workflow run: node `i` begins, or
node `i` completes. -/
inductive Ev where
  | nodeStart (i : Nat)
  | nodeFinish (i : Nat)
deriving DecidableEq, Repr

/-- Whether event `a` occurs strictly before event `b` in the trace `es`
(both must occur). -/
def beforeIn (es : List Ev) (a b : Ev) : Bool :=
  match es.findIdx? (fun e => e = a), es.findIdx? (fun e => e = b) with
  | some ia, some ib => decide (ia < ib)
  | _, _ => false

/-- Modelled from the spec: a trace of one run of the workflow is valid when
every node starts once and finishes once, only declared nodes appear, each
node finishes after it starts, and every enforced precedence (`dependsOn`)
is respected: the earlier node finishes before the later one starts. -/
def validSchedule (spec : WfSpec) (es : List Ev) : Bool :=
  let n := spec.nodes.length
  (List.range n).all (fun i =>
    es.count (Ev.nodeStart i) == 1 && es.count (Ev.nodeFinish i) == 1 &&
    beforeIn es (Ev.nodeStart i) (Ev.nodeFinish i)) &&
  es.all (fun e =>
    match e with
    | Ev.nodeStart i => decide (i < n)
    | Ev.nodeFinish i => decide (i < n)) &&
  (List.range n).all (fun i => (List.range n).all (fun j =>
    !(dependsOn spec i j) || beforeIn es (Ev.nodeFinish i) (Ev.nodeStart j)))

/-- True when the node is a `wait_for_tasks` barrier. -/
def isWaitNode (n : WfNode) : Bool :=
  match n with
  | .waitForTasks _ => true
  | _ => false

/-! ## Workflow registrar (`config/workflows.py:136-156`)

The engine client's `put_wf_spec` is external; whether a given publish call
fails on the engine side is abstracted as an oracle on the workflow name.
The registrar's own control flow (four publish calls in a fixed order inside
one try/except that logs and re-raises) is embedded from the source. -/

/-- The engine's store of published workflow definitions together with the
trace of publish calls issued so far (in order). -/
structure RegState where
  published : List (String × WfSpec)
  attempts : List String
deriving DecidableEq, Repr

/-- Modelled from the spec: publishing into the engine's store, where
"republishing with the same name overwrites the prior definition" (spec
section 3) — publishing never fails because the name already exists. -/
def putOverwrite (store : List (String × WfSpec)) (name : String)
    (spec : WfSpec) : List (String × WfSpec) :=
  if store.any (fun p => p.1 = name) then
    store.map (fun p => if p.1 = name then (name, spec) else p)
  else
    store ++ [(name, spec)]

/-- One `client.put_wf_spec(spec, name)` call. The call is recorded in
`attempts`; `fails` is the oracle saying whether the engine rejects this
publish (for an engine-side reason — never for prior existence, which
overwrites). On success the store is updated; on failure an error is
returned and propagated. -/
def put_wf_spec (fails : String → Bool) (st : RegState) (spec : WfSpec)
    (name : String) : RegState × Option String :=
  let st1 : RegState := { st with attempts := st.attempts ++ [name] }
  if fails name then
    (st1, some ("Failed to register workflows: " ++ name))
  else
    ({ st1 with published := putOverwrite st1.published name spec }, none)

/-- Sequential publishing of a list of (name, definition) pairs,
short-circuiting on the first failure, which is re-raised (`workflows.py`
logs the error and re-raises it out of `register_workflows`). -/
def runPublishes (fails : String → Bool) (st : RegState) :
    List (String × WfSpec) → RegState × Option String
  | [] => (st, none)
  | (name, spec) :: rest =>
    match put_wf_spec fails st spec name with
    | (st1, some e) => (st1, some e)
    | (st1, none) => runPublishes fails st1 rest

/-- The four workflow definitions `register_workflows` publishes, paired
with their names, in the source's call order (`workflows.py:142-151`). -/
def workflowDefs : List (String × WfSpec) :=
  [ ("scan", scan_workflow),
    ("scheduled-scan", scheduled_scan_workflow),
    ("provider-deletion", provider_deletion_workflow),
    ("tenant-deletion", tenant_deletion_workflow) ]

/-- Embedding of `register_workflows` (`workflows.py:136-156`): publish the
four definitions in order; any failure is logged and re-raised, aborting the
remaining publishes. -/
def register_workflows (fails : String → Bool) (st : RegState) :
    RegState × Option String :=
  runPublishes fails st workflowDefs

/-! ## Worker startup (`tasks/littlehorse_workers.py:201-237`)

Each `LHTaskWorker.start()` is an external engine call abstracted as a
failure oracle on the worker's task name; the startup loop (start each
worker in list order, log it as started, and on exception log and re-raise,
abandoning the rest) is embedded from the source. -/

/-- Worker-fleet startup state: workers reported started (in order), and
the `start()` calls issued so far (in order). -/
structure FleetState where
  started : List String
  attempts : List String
deriving DecidableEq, Repr

/-- One iteration of the startup loop (`littlehorse_workers.py:229-235`):
issue `worker.start()`; on success log "Started task worker: name"
(recorded in `started`), on exception log and re-raise. -/
def startWorker (fails : String → Bool) (st : FleetState) (name : String) :
    FleetState × Option String :=
  let st1 : FleetState := { st with attempts := st.attempts ++ [name] }
  if fails name then
    (st1, some ("Failed to start task worker " ++ name))
  else
    ({ st1 with started := st1.started ++ [name] }, none)

/-- The startup loop over the remaining workers, short-circuiting on the
first failure, which is re-raised out of `start_task_workers`. -/
def runStarts (fails : String → Bool) (st : FleetState) :
    List String → FleetState × Option String
  | [] => (st, none)
  | name :: rest =>
    match startWorker fails st name with
    | (st1, some e) => (st1, some e)
    | (st1, none) => runStarts fails st1 rest

/-- The task-definition names of the ten workers `start_task_workers`
creates, in the source's construction order
(`littlehorse_workers.py:209-224`). -/
def taskWorkerNames : List String :=
  [ "perform-prowler-scan",
    "perform-scan-summary",
    "create-compliance-requirements",
    "generate-outputs",
    "setup-scheduled-scan",
    "delete-provider",
    "delete-tenant",
    "check-provider-connection",
    "check-lighthouse-connection",
    "backfill-scan-resource-summaries" ]

/-- Embedding of `start_task_workers` (`littlehorse_workers.py:201-237`):
build the ten workers, then start them in order, failing fast. -/
def start_task_workers (fails : String → Bool) :
    FleetState × Option String :=
  runStarts fails { started := [], attempts := [] } taskWorkerNames

/-! ## Engine client configuration (`config/littlehorse.py`)

`env("NAME", default = None)` yields the variable's string value when the
variable is set (possibly the empty string) and `None` when it is unset;
this is modelled as `Option String`. The `if A and B and C:` guard uses
Python truthiness: `None` and `""` are both falsy. -/

/-- A configuration dictionary value: a string or an integer. -/
inductive ConfigVal where
  | str (s : String)
  | int (n : Int)
deriving DecidableEq, Repr

/-- Python truthiness of an optional environment string: `None` and the
empty string are falsy, every other string is truthy. -/
def pyTruthy (v : Option String) : Bool :=
  match v with
  | none => false
  | some s => s ≠ ""

/-- Embedding of the module-level `LITTLEHORSE_CONFIG` dict
(`littlehorse.py:22-33`) as a function of the environment: the base entries
`bootstrap_host` / `bootstrap_port`, extended with `ca_cert`,
`client_cert` and `client_key` exactly when all three TLS values are
truthy. -/
def LITTLEHORSE_CONFIG (host : String) (port : Int)
    (ca cert key : Option String) : List (String × ConfigVal) :=
  let base : List (String × ConfigVal) :=
    [ ("bootstrap_host", .str host), ("bootstrap_port", .int port) ]
  if pyTruthy ca && pyTruthy cert && pyTruthy key then
    base ++
      [ ("ca_cert", .str (ca.getD "")),
        ("client_cert", .str (cert.getD "")),
        ("client_key", .str (key.getD "")) ]
  else
    base

/-- Whether the configuration contains all three TLS entries. -/
def hasTlsEntries (cfg : List (String × ConfigVal)) : Bool :=
  cfg.any (fun p => p.1 = "ca_cert") &&
  cfg.any (fun p => p.1 = "client_cert") &&
  cfg.any (fun p => p.1 = "client_key")

/-- Whether the configuration contains at least one TLS entry. -/
def hasAnyTlsEntry (cfg : List (String × ConfigVal)) : Bool :=
  cfg.any (fun p =>
    p.1 = "ca_cert" || p.1 = "client_cert" || p.1 = "client_key")

/-! ## Theorems: scheduled-scan deduplicator -/

/-- C1: if a record already matches (tenant, provider, trigger=SCHEDULED,
state=EXECUTING, the provider's scheduling-task id, scheduled date = today),
the handler creates no new record (the store it returns is the one it was
given, and the observed store is unchanged) and returns that record's id
tagged `duplicate = true` together with its serialized snapshot. -/
theorem setup_scheduled_scan_duplicate
    (nextExec : String → String → DateTime) (today : Int) (db : Db)
    (tenant_id provider_id : String) (pt : PeriodicTask)
    (hpt : db.periodic_tasks.filter
      (fun p => p.name = "scan-perform-scheduled-" ++ provider_id) = [pt])
    (hex : ∃ s ∈ db.scans,
      executingTodayMatch tenant_id provider_id pt.id today s = true) :
    ∃ s ∈ db.scans,
      executingTodayMatch tenant_id provider_id pt.id today s = true ∧
      setup_scheduled_scan_task nextExec today db tenant_id provider_id =
        Except.ok ({ scan_id := s.id, duplicate := true,
                     result := some (ScanTaskSerializer s) }, db) ∧
      setupResultingDb nextExec today db tenant_id provider_id = db := by
  obtain ⟨s0, hmem0, hp0⟩ := hex
  cases hfind : db.scans.find?
      (executingTodayMatch tenant_id provider_id pt.id today) with
  | none => exact absurd hp0 (List.find?_eq_none.mp hfind s0 hmem0)
  | some s =>
    refine ⟨s, List.mem_of_find?_eq_some hfind, List.find?_some hfind,
      ?_, ?_⟩
    · simp [setup_scheduled_scan_task, hpt, hfind]
    · simp [setupResultingDb, setup_scheduled_scan_task, hpt, hfind]

/-- C3: with no EXECUTING record for today, the handler's get-or-create
matches on (tenant, provider, trigger=SCHEDULED, scheduling-task id, state
in SCHEDULED/AVAILABLE) with no date filter — in particular a
still-SCHEDULED record with an earlier scheduled date satisfies the match
and is reused, store unchanged — and on creation the defaults give
state=SCHEDULED and scheduled_at = next execution datetime minus one day;
either way the result is the record's id tagged `duplicate = false`. -/
theorem setup_scheduled_scan_get_or_create
    (nextExec : String → String → DateTime) (today : Int) (db : Db)
    (tenant_id provider_id : String) (pt : PeriodicTask)
    (hpt : db.periodic_tasks.filter
      (fun p => p.name = "scan-perform-scheduled-" ++ provider_id) = [pt])
    (hnone : db.scans.find?
      (executingTodayMatch tenant_id provider_id pt.id today) = none) :
    (∀ s : Scan,
      db.scans.filter (getOrCreateMatch tenant_id provider_id pt.id) =
        [s] →
      s ∈ db.scans ∧
        getOrCreateMatch tenant_id provider_id pt.id s = true ∧
        setup_scheduled_scan_task nextExec today db tenant_id provider_id =
          Except.ok ({ scan_id := s.id, duplicate := false,
                       result := none }, db)) ∧
    (∀ s : Scan, s.tenant_id = tenant_id → s.provider_id = provider_id →
      s.trigger = TriggerChoices.SCHEDULED →
      s.state = StateChoices.SCHEDULED → s.scheduler_task_id = pt.id →
      s.scheduled_at.day ≠ today →
      getOrCreateMatch tenant_id provider_id pt.id s = true) ∧
    (db.scans.filter (getOrCreateMatch tenant_id provider_id pt.id) = [] →
      setup_scheduled_scan_task nextExec today db tenant_id provider_id =
        Except.ok ({ scan_id := db.next_scan_id, duplicate := false,
                     result := none },
          { db with
              scans := db.scans ++
                [{ id := db.next_scan_id, tenant_id := tenant_id,
                   provider_id := provider_id,
                   trigger := TriggerChoices.SCHEDULED,
                   state := StateChoices.SCHEDULED,
                   scheduler_task_id := pt.id,
                   scheduled_at := (nextExec "scheduled" provider_id).subDays 1,
                   name := "Daily scheduled scan" }],
              next_scan_id := db.next_scan_id + 1 })) := by
  refine ⟨?_, ?_, ?_⟩
  · intro s hflt
    have hmem : s ∈ db.scans.filter
        (getOrCreateMatch tenant_id provider_id pt.id) := by
      rw [hflt]
      exact List.mem_singleton_self s
    obtain ⟨hmem2, hp⟩ := List.mem_filter.mp hmem
    refine ⟨hmem2, hp, ?_⟩
    simp [setup_scheduled_scan_task, hpt, hnone, hflt]
  · intro s h1 h2 h3 h4 h5 _
    simp [getOrCreateMatch, h1, h2, h3, h4, h5]
  · intro hgoc
    simp [setup_scheduled_scan_task, hpt, hnone, hgoc]

/-- C4: when no `PeriodicTask` named `scan-perform-scheduled-{providerId}`
exists, the handler propagates the lookup failure (an error, not a success
value with a fabricated identity) and the store is left unchanged: no
record is created. -/
theorem setup_scheduled_scan_missing_periodic_task
    (nextExec : String → String → DateTime) (today : Int) (db : Db)
    (tenant_id provider_id : String)
    (hpt : db.periodic_tasks.filter
      (fun p => p.name = "scan-perform-scheduled-" ++ provider_id) = []) :
    setup_scheduled_scan_task nextExec today db tenant_id provider_id =
      Except.error "PeriodicTask matching query does not exist." ∧
    setupResultingDb nextExec today db tenant_id provider_id = db := by
  constructor
  · simp [setup_scheduled_scan_task, hpt]
  · simp [setupResultingDb, setup_scheduled_scan_task, hpt]

/-- C10: a record newly created by the handler has its name field set to
"Daily scheduled scan" (a default beyond the spec's stated creation
defaults), and every `duplicate = false` success result carries only the
scan id and the duplicate flag — its snapshot field is absent. -/
theorem setup_scheduled_scan_create_name_and_payload
    (nextExec : String → String → DateTime) (today : Int) (db : Db)
    (tenant_id provider_id : String) (pt : PeriodicTask)
    (hpt : db.periodic_tasks.filter
      (fun p => p.name = "scan-perform-scheduled-" ++ provider_id) = [pt]) :
    (db.scans.find?
        (executingTodayMatch tenant_id provider_id pt.id today) = none →
      db.scans.filter (getOrCreateMatch tenant_id provider_id pt.id) = [] →
      ∃ created : Scan,
        setup_scheduled_scan_task nextExec today db tenant_id provider_id =
          Except.ok ({ scan_id := created.id, duplicate := false,
                       result := none },
            { db with scans := db.scans ++ [created],
                      next_scan_id := db.next_scan_id + 1 }) ∧
        created.name = "Daily scheduled scan") ∧
    (∀ (r : SetupResult) (db2 : Db),
      setup_scheduled_scan_task nextExec today db tenant_id provider_id =
        Except.ok (r, db2) →
      r.duplicate = false → r.result = none) := by
  constructor
  · intro hnone hgoc
    refine ⟨{ id := db.next_scan_id, tenant_id := tenant_id,
              provider_id := provider_id,
              trigger := TriggerChoices.SCHEDULED,
              state := StateChoices.SCHEDULED,
              scheduler_task_id := pt.id,
              scheduled_at := (nextExec "scheduled" provider_id).subDays 1,
              name := "Daily scheduled scan" }, ?_, rfl⟩
    simp [setup_scheduled_scan_task, hpt, hnone, hgoc]
  · intro r db2 hok hdup
    simp only [setup_scheduled_scan_task, hpt] at hok
    cases hfind : db.scans.find?
        (executingTodayMatch tenant_id provider_id pt.id today) with
    | some s =>
      simp [hfind] at hok
      obtain ⟨hr, -⟩ := hok
      rw [← hr] at hdup
      simp at hdup
    | none =>
      cases hgoc : db.scans.filter
          (getOrCreateMatch tenant_id provider_id pt.id) with
      | nil =>
        simp [hfind, hgoc] at hok
        obtain ⟨hr, -⟩ := hok
        rw [← hr]
      | cons s rest =>
        cases rest with
        | nil =>
          simp [hfind, hgoc] at hok
          obtain ⟨hr, -⟩ := hok
          rw [← hr]
        | cons s2 rest2 =>
          simp [hfind, hgoc] at hok

/-! ## Concrete evaluation data for the deduplicator theorems -/

/-- A concrete scheduling task for provider "p1". -/
def wPt : PeriodicTask := { id := 7, name := "scan-perform-scheduled-p1" }

/-- A concrete EXECUTING scheduled scan dated day 100. -/
def wScanExec : Scan :=
  { id := 42, tenant_id := "t1", provider_id := "p1",
    trigger := TriggerChoices.SCHEDULED, state := StateChoices.EXECUTING,
    scheduler_task_id := 7, scheduled_at := { day := 100, minute := 0 },
    name := "Daily scheduled scan" }

/-- A concrete still-SCHEDULED scan dated day 99 (one day earlier). -/
def wScanStale : Scan :=
  { id := 41, tenant_id := "t1", provider_id := "p1",
    trigger := TriggerChoices.SCHEDULED, state := StateChoices.SCHEDULED,
    scheduler_task_id := 7, scheduled_at := { day := 99, minute := 0 },
    name := "Daily scheduled scan" }

/-- A concrete next-execution-datetime oracle: day 101, minute 30. -/
def wNextExec : String → String → DateTime :=
  fun _ _ => { day := 101, minute := 30 }

/-- Store holding the scheduling task and the EXECUTING scan. -/
def wDbDup : Db :=
  { periodic_tasks := [wPt], scans := [wScanExec], next_scan_id := 43 }

/-- Store holding the scheduling task and the stale SCHEDULED scan. -/
def wDbStale : Db :=
  { periodic_tasks := [wPt], scans := [wScanStale], next_scan_id := 43 }

/-- Store holding the scheduling task and no scans. -/
def wDbEmpty : Db :=
  { periodic_tasks := [wPt], scans := [], next_scan_id := 43 }

/-- Witness for C1 at a concrete store: the duplicate query matches
`wScanExec`, and the handler returns its id, `duplicate = true`, its
snapshot, and the unchanged store. -/
theorem setup_scheduled_scan_duplicate_witness :
    (wDbDup.periodic_tasks.filter
        (fun p => p.name = "scan-perform-scheduled-" ++ "p1") = [wPt] ∧
      ∃ s ∈ wDbDup.scans,
        executingTodayMatch "t1" "p1" wPt.id 100 s = true) ∧
    ∃ s ∈ wDbDup.scans,
      executingTodayMatch "t1" "p1" wPt.id 100 s = true ∧
      setup_scheduled_scan_task wNextExec 100 wDbDup "t1" "p1" =
        Except.ok ({ scan_id := s.id, duplicate := true,
                     result := some (ScanTaskSerializer s) }, wDbDup) ∧
      setupResultingDb wNextExec 100 wDbDup "t1" "p1" = wDbDup :=
  ⟨⟨by decide, by decide⟩,
    setup_scheduled_scan_duplicate wNextExec 100 wDbDup "t1" "p1" wPt
      (by decide) (by decide)⟩

/-- Witness for C3 at a concrete store: no EXECUTING record for day 100,
and the stale SCHEDULED record of day 99 exists; the conclusion of the
get-or-create theorem holds there. -/
theorem setup_scheduled_scan_get_or_create_witness :
    (wDbStale.periodic_tasks.filter
        (fun p => p.name = "scan-perform-scheduled-" ++ "p1") = [wPt] ∧
      wDbStale.scans.find?
        (executingTodayMatch "t1" "p1" wPt.id 100) = none) ∧
    ((∀ s : Scan,
      wDbStale.scans.filter (getOrCreateMatch "t1" "p1" wPt.id) = [s] →
      s ∈ wDbStale.scans ∧
        getOrCreateMatch "t1" "p1" wPt.id s = true ∧
        setup_scheduled_scan_task wNextExec 100 wDbStale "t1" "p1" =
          Except.ok ({ scan_id := s.id, duplicate := false,
                       result := none }, wDbStale)) ∧
    (∀ s : Scan, s.tenant_id = "t1" → s.provider_id = "p1" →
      s.trigger = TriggerChoices.SCHEDULED →
      s.state = StateChoices.SCHEDULED → s.scheduler_task_id = wPt.id →
      s.scheduled_at.day ≠ 100 →
      getOrCreateMatch "t1" "p1" wPt.id s = true) ∧
    (wDbStale.scans.filter (getOrCreateMatch "t1" "p1" wPt.id) = [] →
      setup_scheduled_scan_task wNextExec 100 wDbStale "t1" "p1" =
        Except.ok ({ scan_id := wDbStale.next_scan_id, duplicate := false,
                     result := none },
          { wDbStale with
              scans := wDbStale.scans ++
                [{ id := wDbStale.next_scan_id, tenant_id := "t1",
                   provider_id := "p1",
                   trigger := TriggerChoices.SCHEDULED,
                   state := StateChoices.SCHEDULED,
                   scheduler_task_id := wPt.id,
                   scheduled_at := (wNextExec "scheduled" "p1").subDays 1,
                   name := "Daily scheduled scan" }],
              next_scan_id := wDbStale.next_scan_id + 1 }))) :=
  ⟨⟨by decide, by decide⟩,
    setup_scheduled_scan_get_or_create wNextExec 100 wDbStale "t1" "p1" wPt
      (by decide) (by decide)⟩

/-- Witness for C4 at a concrete store with no scheduling task for the
queried provider "p2": the handler errors and the store is unchanged. -/
theorem setup_scheduled_scan_missing_periodic_task_witness :
    (wDbDup.periodic_tasks.filter
        (fun p => p.name = "scan-perform-scheduled-" ++ "p2") = []) ∧
    (setup_scheduled_scan_task wNextExec 100 wDbDup "t1" "p2" =
        Except.error "PeriodicTask matching query does not exist." ∧
      setupResultingDb wNextExec 100 wDbDup "t1" "p2" = wDbDup) :=
  ⟨by decide,
    setup_scheduled_scan_missing_periodic_task wNextExec 100 wDbDup
      "t1" "p2" (by decide)⟩

/-- Witness for C10 at a concrete empty store: the handler creates a record
named "Daily scheduled scan" and its duplicate=false result has no
snapshot. -/
theorem setup_scheduled_scan_create_name_and_payload_witness :
    (wDbEmpty.periodic_tasks.filter
        (fun p => p.name = "scan-perform-scheduled-" ++ "p1") = [wPt]) ∧
    ((wDbEmpty.scans.find?
        (executingTodayMatch "t1" "p1" wPt.id 100) = none →
      wDbEmpty.scans.filter (getOrCreateMatch "t1" "p1" wPt.id) = [] →
      ∃ created : Scan,
        setup_scheduled_scan_task wNextExec 100 wDbEmpty "t1" "p1" =
          Except.ok ({ scan_id := created.id, duplicate := false,
                       result := none },
            { wDbEmpty with scans := wDbEmpty.scans ++ [created],
                            next_scan_id := wDbEmpty.next_scan_id + 1 }) ∧
        created.name = "Daily scheduled scan") ∧
    (∀ (r : SetupResult) (db2 : Db),
      setup_scheduled_scan_task wNextExec 100 wDbEmpty "t1" "p1" =
        Except.ok (r, db2) →
      r.duplicate = false → r.result = none)) :=
  ⟨by decide,
    setup_scheduled_scan_create_name_and_payload wNextExec 100 wDbEmpty
      "t1" "p1" wPt (by decide)⟩

/-! ## Theorems: workflow step ordering -/

/-- In a valid trace, every enforced precedence is observed: the earlier
node finishes before the later node starts. -/
theorem validSchedule_dep (spec : WfSpec) (es : List Ev)
    (h : validSchedule spec es = true) (i j : Nat)
    (hd : dependsOn spec i j = true) :
    beforeIn es (Ev.nodeFinish i) (Ev.nodeStart j) = true := by
  have hij : i < j ∧ j < spec.nodes.length := by
    have hd2 := hd
    unfold dependsOn at hd2
    simp only [Bool.and_eq_true, decide_eq_true_eq] at hd2
    exact ⟨hd2.1.1, hd2.1.2⟩
  have hi : i < spec.nodes.length := lt_trans hij.1 hij.2
  unfold validSchedule at h
  simp only [Bool.and_eq_true, List.all_eq_true, List.mem_range] at h
  have h3 := h.2 i hi j hij.2
  rw [hd] at h3
  simpa using h3

/-- A fully sequential trace of the scan workflow: compliance (node 1)
finishes before the summary (node 2) starts. -/
def scanScheduleSeq : List Ev :=
  [ .nodeStart 0, .nodeFinish 0, .nodeStart 1, .nodeFinish 1,
    .nodeStart 2, .nodeFinish 2, .nodeStart 3, .nodeFinish 3,
    .nodeStart 4, .nodeFinish 4 ]

/-- A trace of the scan workflow in which compliance (node 1) and the
summary (node 2) overlap: both are running at once. -/
def scanScheduleOverlap : List Ev :=
  [ .nodeStart 0, .nodeFinish 0, .nodeStart 1, .nodeStart 2,
    .nodeFinish 1, .nodeFinish 2, .nodeStart 3, .nodeFinish 3,
    .nodeStart 4, .nodeFinish 4 ]

/-- A trace of the scan workflow in which the summary (node 2) finishes
before compliance (node 1) starts. -/
def scanScheduleSummaryFirst : List Ev :=
  [ .nodeStart 0, .nodeFinish 0, .nodeStart 2, .nodeFinish 2,
    .nodeStart 1, .nodeFinish 1, .nodeStart 3, .nodeFinish 3,
    .nodeStart 4, .nodeFinish 4 ]

/-- C2: in every valid trace of the scan workflow, generate-outputs
(node 4) starts only after both create-compliance-requirements (node 1)
and perform-scan-summary, the findings aggregation, (node 2) have
finished, and perform-prowler-scan (node 0) finishes before either of
those starts; no precedence is enforced between nodes 1 and 2 in either
direction, and valid traces exist in which they overlap, in which 1
completes before 2 starts, and in which 2 completes before 1 starts. -/
theorem scan_workflow_step_ordering (es : List Ev)
    (h : validSchedule scan_workflow es = true) :
    (beforeIn es (Ev.nodeFinish 1) (Ev.nodeStart 4) = true ∧
      beforeIn es (Ev.nodeFinish 2) (Ev.nodeStart 4) = true) ∧
    (beforeIn es (Ev.nodeFinish 0) (Ev.nodeStart 1) = true ∧
      beforeIn es (Ev.nodeFinish 0) (Ev.nodeStart 2) = true) ∧
    (dependsOn scan_workflow 1 2 = false ∧
      dependsOn scan_workflow 2 1 = false) ∧
    (∃ esOv : List Ev, validSchedule scan_workflow esOv = true ∧
      beforeIn esOv (Ev.nodeStart 1) (Ev.nodeFinish 2) = true ∧
      beforeIn esOv (Ev.nodeStart 2) (Ev.nodeFinish 1) = true) ∧
    (∃ esA esB : List Ev, validSchedule scan_workflow esA = true ∧
      validSchedule scan_workflow esB = true ∧
      beforeIn esA (Ev.nodeFinish 1) (Ev.nodeStart 2) = true ∧
      beforeIn esB (Ev.nodeFinish 2) (Ev.nodeStart 1) = true) :=
  ⟨⟨validSchedule_dep _ _ h 1 4 (by decide),
      validSchedule_dep _ _ h 2 4 (by decide)⟩,
    ⟨validSchedule_dep _ _ h 0 1 (by decide),
      validSchedule_dep _ _ h 0 2 (by decide)⟩,
    ⟨by decide, by decide⟩,
    ⟨scanScheduleOverlap, by decide, by decide, by decide⟩,
    ⟨scanScheduleSeq, scanScheduleSummaryFirst, by decide, by decide,
      by decide, by decide⟩⟩

/-- Witness for C2 at the concrete sequential trace. -/
theorem scan_workflow_step_ordering_witness :
    validSchedule scan_workflow scanScheduleSeq = true ∧
    ((beforeIn scanScheduleSeq (Ev.nodeFinish 1) (Ev.nodeStart 4) = true ∧
        beforeIn scanScheduleSeq (Ev.nodeFinish 2) (Ev.nodeStart 4) = true) ∧
      (beforeIn scanScheduleSeq (Ev.nodeFinish 0) (Ev.nodeStart 1) = true ∧
        beforeIn scanScheduleSeq (Ev.nodeFinish 0) (Ev.nodeStart 2) = true) ∧
      (dependsOn scan_workflow 1 2 = false ∧
        dependsOn scan_workflow 2 1 = false) ∧
      (∃ esOv : List Ev, validSchedule scan_workflow esOv = true ∧
        beforeIn esOv (Ev.nodeStart 1) (Ev.nodeFinish 2) = true ∧
        beforeIn esOv (Ev.nodeStart 2) (Ev.nodeFinish 1) = true) ∧
      (∃ esA esB : List Ev, validSchedule scan_workflow esA = true ∧
        validSchedule scan_workflow esB = true ∧
        beforeIn esA (Ev.nodeFinish 1) (Ev.nodeStart 2) = true ∧
        beforeIn esB (Ev.nodeFinish 2) (Ev.nodeStart 1) = true)) :=
  ⟨by decide, scan_workflow_step_ordering scanScheduleSeq (by decide)⟩

/-- C7: the scheduled-scan workflow's first node runs setup-scheduled-scan
on the tenant and provider inputs; its second and last node spawns a
sub-execution of the workflow named "scan" whose variables pass tenant and
provider through, project field `scan_id` from the setup node's output,
and bind an empty checks-to-execute list; the setup node finishes before
the spawn in every valid trace, and the workflow contains no
wait-for-tasks barrier — nothing in the parent waits on the spawned
sub-execution. -/
theorem scheduled_scan_workflow_handoff :
    scheduled_scan_workflow.nodes.get? 0 =
      some (WfNode.task "setup-scheduled-scan"
        [ ("tenant_id", VarExpr.varPath "tenant_id" "$"),
          ("provider_id", VarExpr.varPath "provider_id" "$") ]) ∧
    scheduled_scan_workflow.nodes.get? 1 =
      some (WfNode.spawnThread "main_scan_thread" "scan"
        [ ("tenant_id", VarExpr.varPath "tenant_id" "$"),
          ("scan_id", VarExpr.nodeOutputPath 0 "$.scan_id"),
          ("provider_id", VarExpr.varPath "provider_id" "$"),
          ("checks_to_execute", VarExpr.emptyList) ]) ∧
    scheduled_scan_workflow.nodes.length = 2 ∧
    dependsOn scheduled_scan_workflow 0 1 = true ∧
    (∀ es : List Ev, validSchedule scheduled_scan_workflow es = true →
      beforeIn es (Ev.nodeFinish 0) (Ev.nodeStart 1) = true) ∧
    scheduled_scan_workflow.nodes.all (fun n => !(isWaitNode n)) = true :=
  ⟨rfl, rfl, rfl, by decide,
    fun es h => validSchedule_dep _ _ h 0 1 (by decide), by decide⟩

/-- Witness for C7 at a concrete valid trace of the scheduled-scan
workflow. -/
theorem scheduled_scan_workflow_handoff_witness :
    validSchedule scheduled_scan_workflow
      [ Ev.nodeStart 0, Ev.nodeFinish 0, Ev.nodeStart 1,
        Ev.nodeFinish 1 ] = true ∧
    beforeIn
      [ Ev.nodeStart 0, Ev.nodeFinish 0, Ev.nodeStart 1, Ev.nodeFinish 1 ]
      (Ev.nodeFinish 0) (Ev.nodeStart 1) = true :=
  ⟨by decide,
    scheduled_scan_workflow_handoff.2.2.2.2.1
      [ Ev.nodeStart 0, Ev.nodeFinish 0, Ev.nodeStart 1, Ev.nodeFinish 1 ]
      (by decide)⟩

/-! ## Theorems: registrar idempotence and fail-fast sequences -/

/-- C5: registering the workflows twice in succession (no engine-side
failures) succeeds both times, leaves the published set exactly the four
workflows scan, scheduled-scan, provider-deletion and tenant-deletion, the
second run leaves the store exactly as the first did, and a publish never
fails on account of the name already being present in the store. -/
theorem register_workflows_idempotent :
    (register_workflows (fun _ => false)
        { published := [], attempts := [] }).2 = none ∧
    (register_workflows (fun _ => false)
        (register_workflows (fun _ => false)
          { published := [], attempts := [] }).1).2 = none ∧
    (register_workflows (fun _ => false)
        (register_workflows (fun _ => false)
          { published := [], attempts := [] }).1).1.published.map
        Prod.fst =
      ["scan", "scheduled-scan", "provider-deletion", "tenant-deletion"] ∧
    (register_workflows (fun _ => false)
        (register_workflows (fun _ => false)
          { published := [], attempts := [] }).1).1.published =
      (register_workflows (fun _ => false)
        { published := [], attempts := [] }).1.published ∧
    ∀ (st : RegState) (spec : WfSpec) (name : String),
      (put_wf_spec (fun _ => false) st spec name).2 = none :=
  ⟨rfl, rfl, rfl, rfl, fun _ _ _ => rfl⟩

/-- Fail-fast behaviour of the sequential publish runner: when the oracle
rejects the publish at position K and accepts all earlier ones, the run
propagates a failure, the attempted publishes are exactly the first K+1 in
order, and the store holds exactly the first K publishes applied to the
initial store — no rollback. -/
theorem runPublishes_failfast (fails : String → Bool) :
    ∀ (defs : List (String × WfSpec)) (st : RegState) (K : Nat),
      K < defs.length →
      (∀ j, j < K → fails ((defs.map Prod.fst).getD j "") = false) →
      fails ((defs.map Prod.fst).getD K "") = true →
      (runPublishes fails st defs).2.isSome = true ∧
      (runPublishes fails st defs).1.attempts =
        st.attempts ++ (defs.map Prod.fst).take (K + 1) ∧
      (runPublishes fails st defs).1.published =
        (defs.take K).foldl
          (fun store p => putOverwrite store p.1 p.2) st.published := by
  intro defs
  induction defs with
  | nil =>
    intro st K hK hprev hfail
    simp at hK
  | cons d rest ih =>
    intro st K hK hprev hfail
    obtain ⟨name, spec⟩ := d
    cases K with
    | zero =>
      have hf : fails name = true := by simpa using hfail
      simp [runPublishes, put_wf_spec, hf]
    | succ K =>
      have h0 : fails name = false := by
        have := hprev 0 (Nat.succ_pos K)
        simpa using this
      have step : put_wf_spec fails st spec name =
          ({ published := putOverwrite st.published name spec,
             attempts := st.attempts ++ [name] }, none) := by
        simp [put_wf_spec, h0]
      have ihr := ih
        { published := putOverwrite st.published name spec,
          attempts := st.attempts ++ [name] } K
        (by simp only [List.length_cons] at hK; omega)
        (fun j hj => by
          have := hprev (j + 1) (Nat.succ_lt_succ hj)
          simpa using this)
        (by simpa using hfail)
      refine ⟨?_, ?_, ?_⟩
      · simpa [runPublishes, step] using ihr.1
      · rw [show runPublishes fails st ((name, spec) :: rest) =
            runPublishes fails
              { published := putOverwrite st.published name spec,
                attempts := st.attempts ++ [name] } rest by
          simp [runPublishes, step]]
        rw [ihr.2.1]
        simp [List.take_succ_cons, List.append_assoc]
      · rw [show runPublishes fails st ((name, spec) :: rest) =
            runPublishes fails
              { published := putOverwrite st.published name spec,
                attempts := st.attempts ++ [name] } rest by
          simp [runPublishes, step]]
        rw [ihr.2.2]
        simp [List.take_succ_cons]

/-- C9: `register_workflows` attempts the publishes in the fixed order
scan, scheduled-scan, provider-deletion, tenant-deletion; if the K-th
publish fails, the failure is propagated (re-raised after logging), the
earlier publishes remain in the store (no rollback), and the later
definitions are never attempted — the attempt trace stops at K. -/
theorem register_workflows_failfast (fails : String → Bool) (st : RegState)
    (K : Nat) (hK : K < workflowDefs.length)
    (hprev : ∀ j, j < K →
      fails ((workflowDefs.map Prod.fst).getD j "") = false)
    (hfail : fails ((workflowDefs.map Prod.fst).getD K "") = true) :
    workflowDefs.map Prod.fst =
      ["scan", "scheduled-scan", "provider-deletion", "tenant-deletion"] ∧
    (register_workflows fails st).2.isSome = true ∧
    (register_workflows fails st).1.attempts =
      st.attempts ++ (workflowDefs.map Prod.fst).take (K + 1) ∧
    (register_workflows fails st).1.published =
      (workflowDefs.take K).foldl
        (fun store p => putOverwrite store p.1 p.2) st.published := by
  have h := runPublishes_failfast fails workflowDefs st K hK hprev hfail
  exact ⟨rfl, h.1, h.2.1, h.2.2⟩

/-- Witness for C9: the third publish (provider-deletion, K = 2) fails;
scan and scheduled-scan stay published from an empty store, the failure
surfaces, and tenant-deletion is never attempted. -/
theorem register_workflows_failfast_witness :
    (2 < workflowDefs.length ∧
      (∀ j, j < 2 →
        (fun n => n == "provider-deletion")
          ((workflowDefs.map Prod.fst).getD j "") = false) ∧
      (fun n => n == "provider-deletion")
        ((workflowDefs.map Prod.fst).getD 2 "") = true) ∧
    (workflowDefs.map Prod.fst =
      ["scan", "scheduled-scan", "provider-deletion", "tenant-deletion"] ∧
    (register_workflows (fun n => n == "provider-deletion")
        { published := [], attempts := [] }).2.isSome = true ∧
    (register_workflows (fun n => n == "provider-deletion")
        { published := [], attempts := [] }).1.attempts =
      ([] : List String) ++ (workflowDefs.map Prod.fst).take 3 ∧
    (register_workflows (fun n => n == "provider-deletion")
        { published := [], attempts := [] }).1.published =
      (workflowDefs.take 2).foldl
        (fun store p => putOverwrite store p.1 p.2) []) :=
  ⟨⟨by decide, by decide, by decide⟩,
    register_workflows_failfast (fun n => n == "provider-deletion")
      { published := [], attempts := [] } 2 (by decide) (by decide)
      (by decide)⟩

/-- Fail-fast behaviour of the worker startup loop: when the oracle
rejects the start at position K and accepts all earlier ones, the loop
propagates a failure, exactly the first K workers are reported started (in
order), and exactly the first K+1 starts are attempted. -/
theorem runStarts_failfast (fails : String → Bool) :
    ∀ (names : List String) (st : FleetState) (K : Nat),
      K < names.length →
      (∀ j, j < K → fails (names.getD j "") = false) →
      fails (names.getD K "") = true →
      (runStarts fails st names).2.isSome = true ∧
      (runStarts fails st names).1.started =
        st.started ++ names.take K ∧
      (runStarts fails st names).1.attempts =
        st.attempts ++ names.take (K + 1) := by
  intro names
  induction names with
  | nil =>
    intro st K hK hprev hfail
    simp at hK
  | cons name rest ih =>
    intro st K hK hprev hfail
    cases K with
    | zero =>
      have hf : fails name = true := by simpa using hfail
      simp [runStarts, startWorker, hf]
    | succ K =>
      have h0 : fails name = false := by
        have := hprev 0 (Nat.succ_pos K)
        simpa using this
      have step : startWorker fails st name =
          ({ started := st.started ++ [name],
             attempts := st.attempts ++ [name] }, none) := by
        simp [startWorker, h0]
      have ihr := ih
        { started := st.started ++ [name],
          attempts := st.attempts ++ [name] } K
        (by simp only [List.length_cons] at hK; omega)
        (fun j hj => by
          have := hprev (j + 1) (Nat.succ_lt_succ hj)
          simpa using this)
        (by simpa using hfail)
      refine ⟨?_, ?_, ?_⟩
      · simpa [runStarts, step] using ihr.1
      · rw [show runStarts fails st (name :: rest) =
            runStarts fails
              { started := st.started ++ [name],
                attempts := st.attempts ++ [name] } rest by
          simp [runStarts, step]]
        rw [ihr.2.1]
        simp [List.take_succ_cons, List.append_assoc]
      · rw [show runStarts fails st (name :: rest) =
            runStarts fails
              { started := st.started ++ [name],
                attempts := st.attempts ++ [name] } rest by
          simp [runStarts, step]]
        rw [ihr.2.2]
        simp [List.take_succ_cons, List.append_assoc]

/-- C6: if starting the worker at position K (0-based) of the ten task
workers fails, the workers before K have been started and reported
started, in order; the failure is propagated out of `start_task_workers`;
and no worker after K is ever started — the attempt trace ends at K. -/
theorem start_task_workers_failfast (fails : String → Bool) (K : Nat)
    (hK : K < taskWorkerNames.length)
    (hprev : ∀ j, j < K → fails (taskWorkerNames.getD j "") = false)
    (hfail : fails (taskWorkerNames.getD K "") = true) :
    (start_task_workers fails).2.isSome = true ∧
    (start_task_workers fails).1.started = taskWorkerNames.take K ∧
    (start_task_workers fails).1.attempts =
      taskWorkerNames.take (K + 1) := by
  have h := runStarts_failfast fails taskWorkerNames
    { started := [], attempts := [] } K hK hprev hfail
  refine ⟨h.1, ?_, ?_⟩
  · have := h.2.1
    simpa using this
  · have := h.2.2
    simpa using this

/-- Witness for C6: the fourth worker (generate-outputs, K = 3) fails to
start; the first three are reported started, the failure surfaces, and the
remaining six are never attempted. -/
theorem start_task_workers_failfast_witness :
    (3 < taskWorkerNames.length ∧
      (∀ j, j < 3 →
        (fun n => n == "generate-outputs")
          (taskWorkerNames.getD j "") = false) ∧
      (fun n => n == "generate-outputs")
        (taskWorkerNames.getD 3 "") = true) ∧
    ((start_task_workers (fun n => n == "generate-outputs")).2.isSome =
        true ∧
      (start_task_workers (fun n => n == "generate-outputs")).1.started =
        taskWorkerNames.take 3 ∧
      (start_task_workers (fun n => n == "generate-outputs")).1.attempts =
        taskWorkerNames.take 4) :=
  ⟨⟨by decide, by decide, by decide⟩,
    start_task_workers_failfast (fun n => n == "generate-outputs") 3
      (by decide) (by decide) (by decide)⟩

/-! ## Theorems: engine client configuration -/

/-- C8 counterexample: with all three TLS environment paths set (the CA
path set to the empty string), the configuration contains no TLS entry —
refuting, at this concrete input, the claim that TLS settings are present
whenever all three paths are set. -/
theorem littlehorse_config_tls_counterexample :
    (Option.isSome (some "") = true ∧
      Option.isSome (some "/certs/client.pem") = true ∧
      Option.isSome (some "/certs/client.key") = true) ∧
    hasAnyTlsEntry
      (LITTLEHORSE_CONFIG "localhost" 2023 (some "")
        (some "/certs/client.pem") (some "/certs/client.key")) = false := by
  decide

/-- C8 (amended): the configuration contains the three TLS entries exactly
when all three TLS environment paths are set to non-empty values (Python
truthiness of the `if` guard); when any one is unset or empty, no TLS
entry is present and the configuration is exactly the two bootstrap
entries. -/
theorem littlehorse_config_tls (host : String) (port : Int)
    (ca cert key : Option String) :
    hasTlsEntries (LITTLEHORSE_CONFIG host port ca cert key) =
      (pyTruthy ca && pyTruthy cert && pyTruthy key) ∧
    hasAnyTlsEntry (LITTLEHORSE_CONFIG host port ca cert key) =
      (pyTruthy ca && pyTruthy cert && pyTruthy key) ∧
    (LITTLEHORSE_CONFIG host port ca cert key =
        [ ("bootstrap_host", ConfigVal.str host),
          ("bootstrap_port", ConfigVal.int port) ] ∨
      LITTLEHORSE_CONFIG host port ca cert key =
        [ ("bootstrap_host", ConfigVal.str host),
          ("bootstrap_port", ConfigVal.int port),
          ("ca_cert", ConfigVal.str (ca.getD "")),
          ("client_cert", ConfigVal.str (cert.getD "")),
          ("client_key", ConfigVal.str (key.getD "")) ] ∧
        (pyTruthy ca && pyTruthy cert && pyTruthy key) = true) := by
  by_cases hc : (pyTruthy ca && pyTruthy cert && pyTruthy key) = true
  · refine ⟨?_, ?_, Or.inr ⟨?_, hc⟩⟩ <;>
      simp [LITTLEHORSE_CONFIG, hasTlsEntries, hasAnyTlsEntry, hc]
  · have hc2 : (pyTruthy ca && pyTruthy cert && pyTruthy key) = false :=
      Bool.eq_false_iff.mpr hc
    refine ⟨?_, ?_, Or.inl ?_⟩ <;>
      simp [LITTLEHORSE_CONFIG, hasTlsEntries, hasAnyTlsEntry, hc2]

end Prowler
